import Mathlib

/-!
Verification of the LUCID lookup service (`server.js`, v2 and v4 variants).

The service keeps an in-memory map from normalized registration numbers to
producer records, refreshed from an upstream XML feed.  We shallowly embed
the cache-synchronization core: the XML normalizer (the container discovery and
field-alias extraction of `downloadAndParseXML`), the map builder, the
refresh coordinator (`updateCache`), the lookup handler
(`GET /api/lucid/validate`) and the admin refresh handlers of both server
variants, together with the environment-derived configuration.

JavaScript strings are modelled as lists of UTF-16 code units (`List Nat`);
`trim`/`toUpperCase` are modelled on their ASCII behaviour, which covers the
key space (registration numbers) exactly.  Times are epoch milliseconds as
integers; the float division `(now - last) / 3600000 < ttl` is modelled by
the exact equivalent `now - last < ttl * 3600000`.
-/

namespace LucidService

/-- JavaScript strings as sequences of UTF-16 code units. -/
abbrev JsStr := List Nat

/-- Convert a Lean string literal into the code-unit model (convenience for
concrete instances; all inputs used are ASCII). -/
def strCodes (s : String) : JsStr := s.data.map Char.toNat

/-- Model of the whitespace class removed by `String.prototype.trim`
(ASCII part: space, tab, LF, VT, FF, CR). -/
def isWsCode (n : Nat) : Bool :=
  decide (n = 32 ∨ n = 9 ∨ n = 10 ∨ n = 11 ∨ n = 12 ∨ n = 13)

/-- Model of `String.prototype.toUpperCase` on one code unit (ASCII part:
`a`-`z` map to `A`-`Z`, everything else unchanged). -/
def upperCode (n : Nat) : Nat := if 97 ≤ n ∧ n ≤ 122 then n - 32 else n

/-- Model of `s.trim()`: drop leading and trailing whitespace. -/
def jsTrim (s : JsStr) : JsStr :=
  ((s.dropWhile isWsCode).reverse.dropWhile isWsCode).reverse

/-- Model of `s.toUpperCase()`. -/
def jsUpper (s : JsStr) : JsStr := s.map upperCode

/-- Key normalization used both when building the map and at lookup time:
`s.trim().toUpperCase()`. -/
def normKey (s : JsStr) : JsStr := jsUpper (jsTrim s)

/-- One stored producer record, as assembled in `downloadAndParseXML`. -/
structure ProducerRecord where
  registration_number : JsStr
  company_name : JsStr
  vat_number : JsStr
  tax_number : JsStr
  address : JsStr
  city : JsStr
  postal_code : JsStr
deriving DecidableEq, Repr

/-- A raw parsed producer entry, with every known field alias as an optional
value (`none` models an absent property, i.e. `undefined`). -/
structure RawProducer where
  RegistrationNumber : Option JsStr := none
  registrationNumber : Option JsStr := none
  registration_number : Option JsStr := none
  RegNr : Option JsStr := none
  ProducerName : Option JsStr := none
  Name : Option JsStr := none
  CompanyName : Option JsStr := none
  name : Option JsStr := none
  VATNumber : Option JsStr := none
  UstIdNr : Option JsStr := none
  vat_number : Option JsStr := none
  TaxNumber : Option JsStr := none
  Steuernummer : Option JsStr := none
  tax_number : Option JsStr := none
  Address : Option JsStr := none
  address : Option JsStr := none
  City : Option JsStr := none
  city : Option JsStr := none
  PostalCode : Option JsStr := none
  postal_code : Option JsStr := none
deriving DecidableEq, Repr

/-- Model of a JavaScript `a || b || ... || two-quote-empty-string` alias chain over string
fields: an absent (`undefined`) or empty value falls through to the next
alternative; the final fallback is the empty string. -/
def jsOr : List (Option JsStr) → JsStr
  | [] => []
  | none :: rest => jsOr rest
  | some s :: rest => if s = [] then jsOr rest else s

/-- Registration-number extraction of `downloadAndParseXML`:
`producer.RegistrationNumber || producer.registrationNumber ||
producer.registration_number || producer.RegNr || two-quote-empty-string`. -/
def regNumOf (p : RawProducer) : JsStr :=
  jsOr [p.RegistrationNumber, p.registrationNumber, p.registration_number, p.RegNr]

/-- The record literal built for one producer entry in `downloadAndParseXML`. -/
def extractRecord (p : RawProducer) : ProducerRecord where
  registration_number := regNumOf p
  company_name := jsOr [p.ProducerName, p.Name, p.CompanyName, p.name]
  vat_number := jsOr [p.VATNumber, p.UstIdNr, p.vat_number]
  tax_number := jsOr [p.TaxNumber, p.Steuernummer, p.tax_number]
  address := jsOr [p.Address, p.address]
  city := jsOr [p.City, p.city]
  postal_code := jsOr [p.PostalCode, p.postal_code]

/-- The in-memory lookup table, modelling a JavaScript `Map` keyed by
normalized registration number (insertion order preserved, keys unique). -/
abbrev StoreMap := List (JsStr × ProducerRecord)

/-- Model of `Map.prototype.set`: replace in place if the key exists,
otherwise append. -/
def mapSet : StoreMap → JsStr → ProducerRecord → StoreMap
  | [], k, v => [(k, v)]
  | (k', v') :: rest, k, v =>
      if k' = k then (k, v) :: rest else (k', v') :: mapSet rest k v

/-- Model of `Map.prototype.get` (`none` for `undefined`). -/
def mapGet : StoreMap → JsStr → Option ProducerRecord
  | [], _ => none
  | (k', v') :: rest, k => if k' = k then some v' else mapGet rest k

/-- Model of `Map.prototype.size` (keys are unique by construction). -/
def mapSize (m : StoreMap) : Nat := m.length

/-- One loop iteration of the `for (const producer of producers)` map-building
loop: extract the registration number through the alias chain, drop the entry
if it is empty, otherwise `set` under the trimmed upper-cased key. -/
def buildStep (m : StoreMap) (p : RawProducer) : StoreMap :=
  let regNum := regNumOf p
  if regNum ≠ [] then mapSet m (normKey regNum) (extractRecord p) else m

/-- The whole map-building loop of `downloadAndParseXML`, starting from
`new Map()`. -/
def buildMap (producers : List RawProducer) : StoreMap :=
  producers.foldl buildStep []

/-- A producer container node in the parsed XML: either a single entry
(which the code wraps into a one-element array) or an array of entries. -/
inductive ProducerNode where
  | one (p : RawProducer)
  | many (ps : List RawProducer)
deriving DecidableEq, Repr

/-- The `Array.isArray(x) ? x : [x]` wrapping applied to a found container. -/
def nodeList : ProducerNode → List RawProducer
  | .one p => [p]
  | .many ps => ps

/-- The parsed XML document, restricted to the four container paths the code
probes; `none` models an absent (or optional-chaining short-circuited)
path. -/
structure ParsedDoc where
  rootListOfProducers : Option ProducerNode := none
  producersLower : Option ProducerNode := none
  registerExcerpt : Option ProducerNode := none
  producersUpper : Option ProducerNode := none
deriving DecidableEq, Repr

/-- The container-discovery `if`/`else if` chain of `downloadAndParseXML`:
probe `Root.ListOfProducers.Producer`, then `producers.producer`, then
`RegisterExcerpt.Producer`, then `Producers.Producer`; first present path
wins; none present yields an empty list. -/
def findProducers (d : ParsedDoc) : List RawProducer :=
  match d.rootListOfProducers with
  | some n => nodeList n
  | none =>
    match d.producersLower with
    | some n => nodeList n
    | none =>
      match d.registerExcerpt with
      | some n => nodeList n
      | none =>
        match d.producersUpper with
        | some n => nodeList n
        | none => []

/-- The process-wide `memoryCache` object: the live snapshot map, the epoch
timestamp of the last successful install (`none` models `null`), and the
`isLoading` guard flag. -/
structure MemoryCache where
  data : StoreMap
  lastUpdate : Option Int
  isLoading : Bool
deriving DecidableEq, Repr

/-- The on-disk backup written by a successful refresh
(`{lastUpdate, count, data}` in `lucid-cache.json`). -/
structure DiskFile where
  lastUpdate : Int
  count : Nat
  data : StoreMap
deriving DecidableEq, Repr

/-- The full mutable state the refresh protocol touches: memory cache plus
the persisted file (`none` when no file exists yet). -/
structure ServiceState where
  cache : MemoryCache
  disk : Option DiskFile
deriving DecidableEq, Repr

/-- Outcome of one `updateCache(force)` call: the two guard no-ops, a
successful install, or a re-thrown fetch/parse error. -/
inductive UpdateResult where
  | skippedFresh
  | skippedLoading
  | success
  | failure (e : JsStr)
deriving DecidableEq, Repr

/-- The TTL guard of `updateCache`: skip when not forced, `lastUpdate` is
truthy (non-`null` and non-zero), and the age is below the TTL.  The float
comparison `(now - last) / 3600000 < ttl` is modelled exactly as
`now - last < ttl * 3600000`. -/
def ttlFresh (force : Bool) (tGuard : Int) (ttl : Int) (c : MemoryCache) : Bool :=
  !force &&
    (match c.lastUpdate with
     | some lu => lu != 0 && decide (tGuard - lu < ttl * 3600000)
     | none => false)

/-- The `memoryCache.isLoading = true` assignment at the start of a refresh
body. -/
def beginRefresh (st : ServiceState) : ServiceState :=
  { st with cache := { st.cache with isLoading := true } }

/-- The `try`/`catch`/`finally` body of `updateCache`, entered with the
loading flag set: on fetch/parse error nothing is installed, the flag is
cleared by the `finally`, and the error is re-thrown; on success the new map
and `Date.now()` are installed, then the disk write is attempted (its
failure caught and ignored), and the flag is cleared. -/
def refreshBody (tInstall : Int) (fetch : Except JsStr ParsedDoc) (saveOk : Bool)
    (st : ServiceState) : UpdateResult × ServiceState :=
  match fetch with
  | .error e => (.failure e, { st with cache := { st.cache with isLoading := false } })
  | .ok doc =>
    let newData := buildMap (findProducers doc)
    let cache' : MemoryCache := { data := newData, lastUpdate := some tInstall, isLoading := false }
    let disk' : Option DiskFile :=
      if saveOk then some { lastUpdate := tInstall, count := mapSize newData, data := newData }
      else st.disk
    (.success, { cache := cache', disk := disk' })

/-- `updateCache(force)`: TTL guard (non-forced only), then the
`isLoading` guard, then the refresh body.  `tGuard` is `Date.now()` at the
guard, `tInstall` is `Date.now()` at install time; `fetch` is the outcome of
`downloadAndParseXML` up to the parsed document; `saveOk` tells whether the
disk write succeeds. -/
def updateCache (force : Bool) (tGuard tInstall : Int) (ttl : Int)
    (fetch : Except JsStr ParsedDoc) (saveOk : Bool)
    (st : ServiceState) : UpdateResult × ServiceState :=
  if ttlFresh force tGuard ttl st.cache then (.skippedFresh, st)
  else if st.cache.isLoading then (.skippedLoading, st)
  else refreshBody tInstall fetch saveOk (beginRefresh st)

/-- Responses of `GET /api/lucid/validate`: 401, 400, 503, or the
`registered` / `not_found` JSON bodies. -/
inductive ValidateResp where
  | unauthorized
  | badRequest
  | unavailable
  | found (lucid : JsStr) (p : ProducerRecord)
  | notFound (lucid : JsStr)
deriving DecidableEq, Repr

/-- The final cache lookup of the validate handler:
`memoryCache.data.get(normalized)` answered as `registered` or
`not_found`. -/
def lookupAnswer (lucid : JsStr) (st : ServiceState) : ValidateResp :=
  match mapGet st.cache.data (normKey lucid) with
  | some p => .found lucid p
  | none => .notFound lucid

/-- The `GET /api/lucid/validate` handler (v4 file): API-key check, missing
or empty `lucid` gives 400, an empty store triggers `await updateCache(true)`
whose thrown error gives 503, then the lookup is answered from the current
store. -/
def validateHandler (internalKey : String) (provided : Option String)
    (lucid : Option JsStr) (tGuard tInstall ttl : Int)
    (fetch : Except JsStr ParsedDoc) (saveOk : Bool)
    (st : ServiceState) : ValidateResp × ServiceState :=
  if provided ≠ some internalKey then (.unauthorized, st)
  else
    match lucid with
    | none => (.badRequest, st)
    | some l =>
      if l = [] then (.badRequest, st)
      else if mapSize st.cache.data = 0 then
        match updateCache true tGuard tInstall ttl fetch saveOk st with
        | (.failure _, st') => (.unavailable, st')
        | (_, st') => (lookupAnswer l st', st')
      else (lookupAnswer l st, st)

/-- Responses of `POST /admin/refresh`: 401; the immediate
"update started in background" JSON with the current entry count (v4 file);
or the post-refresh success / 500 responses of the v2 file. -/
inductive AdminResp where
  | unauthorized
  | started (currentEntries : Nat)
  | updated (entries : Nat)
  | failed (e : JsStr)
deriving DecidableEq, Repr

/-- The `POST /admin/refresh` handler of the v4 file: optional API-key
check, then an immediate response carrying the current entry count; the
forced refresh runs in the background and only the state reflects its
outcome. -/
def adminRefreshV4 (internalKey : String) (provided : Option String)
    (tGuard tInstall ttl : Int) (fetch : Except JsStr ParsedDoc) (saveOk : Bool)
    (st : ServiceState) : AdminResp × ServiceState :=
  if internalKey ≠ "" ∧ provided ≠ some internalKey then (.unauthorized, st)
  else (.started (mapSize st.cache.data), (updateCache true tGuard tInstall ttl fetch saveOk st).2)

/-- The `POST /admin/refresh` handler of `server.js` (v2 file): optional
API-key check, then `await updateCache(true)`; a thrown error yields a 500
response, otherwise the post-refresh entry count is reported. -/
def adminRefreshV2 (internalKey : String) (provided : Option String)
    (tGuard tInstall ttl : Int) (fetch : Except JsStr ParsedDoc) (saveOk : Bool)
    (st : ServiceState) : AdminResp × ServiceState :=
  if internalKey ≠ "" ∧ provided ≠ some internalKey then (.unauthorized, st)
  else
    match updateCache true tGuard tInstall ttl fetch saveOk st with
    | (.failure e, st') => (.failed e, st')
    | (_, st') => (.updated (mapSize st'.cache.data), st')

/-- The process environment, as far as the service reads (or the spec claims
it reads) it.  The timeout and maximum-response-size entries are present in
the model because the spec asserts they are consumed; the code never reads
them. -/
structure Env where
  ZSVR_TOKEN : Option String := none
  INTERNAL_API_KEY : Option String := none
  CACHE_TTL_HOURS : Option Int := none
  LUCID_API_URL : Option String := none
  CACHE_DIR : Option String := none
  REQUEST_TIMEOUT_MS : Option Int := none
  MAX_RESPONSE_BYTES : Option Int := none
deriving Repr

/-- The `config` object built at startup from environment variables. -/
structure Config where
  zsvr_token : String
  internal_api_key : String
  cache_ttl_hours : Int
  api_url : String
deriving DecidableEq, Repr

/-- Construction of `config` (the `process.env.X || default` pattern;
`CACHE_TTL_HOURS` abstracts the `parseInt` as an already-numeric value). -/
def buildConfig (env : Env) : Config where
  zsvr_token := env.ZSVR_TOKEN.getD ""
  internal_api_key := env.INTERNAL_API_KEY.getD ""
  cache_ttl_hours := env.CACHE_TTL_HOURS.getD 24
  api_url := env.LUCID_API_URL.getD "https://registerabruf.verpackungsregister.org/v1/listofproducers"

/-- The `CACHE_DIR` constant (`process.env.CACHE_DIR || slash-data`). -/
def cacheDir (env : Env) : String := env.CACHE_DIR.getD "/data"

/-- The axios request object built by `downloadAndParseXML`. -/
structure FetchReq where
  url : String
  tokenParam : String
  acceptHeader : String
  timeoutMs : Int
  maxContentLength : Int
  maxBodyLength : Int
deriving DecidableEq, Repr

/-- The request `downloadAndParseXML` issues: URL and token come from
`config`; the timeout (5 minutes) and both size caps (2 GB) are numeric
literals in the source. -/
def buildFetchReq (cfg : Config) : FetchReq where
  url := cfg.api_url
  tokenParam := cfg.zsvr_token
  acceptHeader := "application/xml"
  timeoutMs := 300000
  maxContentLength := 2000 * 1024 * 1024
  maxBodyLength := 2000 * 1024 * 1024

/-! ## Helper lemmas -/

theorem refreshBody_isLoading_false (tInstall : Int) (fetch : Except JsStr ParsedDoc)
    (saveOk : Bool) (st : ServiceState) :
    (refreshBody tInstall fetch saveOk st).2.cache.isLoading = false := by
  cases fetch <;> simp [refreshBody]

theorem refreshBody_not_skipped (tInstall : Int) (fetch : Except JsStr ParsedDoc)
    (saveOk : Bool) (st : ServiceState) :
    (refreshBody tInstall fetch saveOk st).1 ≠ .skippedFresh ∧
    (refreshBody tInstall fetch saveOk st).1 ≠ .skippedLoading := by
  cases fetch <;> simp [refreshBody]

/-- A refresh whose guards pass and whose fetch-and-parse step throws
leaves the state exactly as it was and re-throws the error. -/
theorem updateCache_error_state (force : Bool) (tGuard tInstall ttl : Int) (e : JsStr)
    (saveOk : Bool) (st : ServiceState)
    (hTtl : ttlFresh force tGuard ttl st.cache = false)
    (hLoad : st.cache.isLoading = false) :
    updateCache force tGuard tInstall ttl (.error e) saveOk st = (.failure e, st) := by
  obtain ⟨⟨d, lu, il⟩, dk⟩ := st
  simp only [MemoryCache.mk.injEq] at hLoad ⊢
  subst hLoad
  simp [updateCache, hTtl, refreshBody, beginRefresh]

/-- A sample empty idle state: empty map, never updated, not loading, no
disk file. -/
def stEmpty : ServiceState :=
  { cache := { data := [], lastUpdate := none, isLoading := false }, disk := none }

/-- A sample warm state holding one record under the key `DE123`. -/
def recA : ProducerRecord :=
  { registration_number := strCodes "DE123", company_name := strCodes "Acme"
    vat_number := [], tax_number := [], address := [], city := [], postal_code := [] }

def stWarm : ServiceState :=
  { cache := { data := [(strCodes "DE123", recA)], lastUpdate := some 1000, isLoading := false }
    disk := none }

/-! ## C1: a fetch/parse error aborts the refresh without installing -/

/-- C1: whenever a refresh (forced or not) passes both guards and the
fetch-and-parse step throws, the refresh installs nothing: the state
afterwards is exactly the previous state (same snapshot map, same
`lastUpdate`, same disk file, loading flag back to `false`), and the error
is re-thrown to the caller as the result. -/
theorem C1_fetch_error_aborts (force : Bool) (tGuard tInstall ttl : Int) (e : JsStr)
    (saveOk : Bool) (st : ServiceState)
    (hTtl : ttlFresh force tGuard ttl st.cache = false)
    (hLoad : st.cache.isLoading = false) :
    updateCache force tGuard tInstall ttl (.error e) saveOk st = (.failure e, st) :=
  updateCache_error_state force tGuard tInstall ttl e saveOk st hTtl hLoad

/-- Witness for C1 at a concrete warm state and error. -/
theorem C1_fetch_error_aborts_witness :
    ttlFresh true 0 24 stWarm.cache = false ∧ stWarm.cache.isLoading = false ∧
    updateCache true 0 0 24 (.error (strCodes "ECONNABORTED")) true stWarm
      = (.failure (strCodes "ECONNABORTED"), stWarm) :=
  ⟨by decide, by decide,
   C1_fetch_error_aborts true 0 0 24 (strCodes "ECONNABORTED") true stWarm
     (by decide) (by decide)⟩

/-! ## C2: the loading-flag lifecycle and mutual exclusion -/

/-- C2: a trigger (forced or not) arriving while `isLoading` is true is a
no-op — the state is returned unchanged and no fetch happens (the result is
one of the two skip outcomes); and when a refresh passes its guards, it runs
the body started from the state with the flag set to `true`, and the flag is
`false` again when it ends, on the success path and the failure path
alike. -/
theorem C2_loading_flag (force : Bool) (tGuard tInstall ttl : Int)
    (fetch : Except JsStr ParsedDoc) (saveOk : Bool) (st : ServiceState) :
    (st.cache.isLoading = true →
      updateCache force tGuard tInstall ttl fetch saveOk st = (.skippedFresh, st) ∨
      updateCache force tGuard tInstall ttl fetch saveOk st = (.skippedLoading, st)) ∧
    (ttlFresh force tGuard ttl st.cache = false → st.cache.isLoading = false →
      updateCache force tGuard tInstall ttl fetch saveOk st
        = refreshBody tInstall fetch saveOk (beginRefresh st) ∧
      (beginRefresh st).cache.isLoading = true ∧
      (updateCache force tGuard tInstall ttl fetch saveOk st).2.cache.isLoading = false) := by
  constructor
  · intro hLoad
    by_cases hTtl : ttlFresh force tGuard ttl st.cache
    · left; simp [updateCache, hTtl]
    · right; simp [updateCache, hTtl, hLoad]
  · intro hTtl hLoad
    refine ⟨by simp [updateCache, hTtl, hLoad], by simp [beginRefresh], ?_⟩
    simp only [updateCache, hTtl, hLoad, Bool.false_eq_true, if_false]
    exact refreshBody_isLoading_false _ _ _ _

/-- Witness for C2 at concrete states: a loading state is skipped
unchanged, and a passing forced trigger runs the body. -/
theorem C2_loading_flag_witness :
    (beginRefresh stWarm).cache.isLoading = true ∧
    (updateCache true 0 0 24 (.ok {}) true (beginRefresh stWarm)
       = (.skippedFresh, beginRefresh stWarm) ∨
     updateCache true 0 0 24 (.ok {}) true (beginRefresh stWarm)
       = (.skippedLoading, beginRefresh stWarm)) ∧
    (updateCache true 0 0 24 (.ok {}) true stWarm).2.cache.isLoading = false :=
  ⟨by decide,
   (C2_loading_flag true 0 0 24 (.ok {}) true (beginRefresh stWarm)).1 (by decide),
   ((C2_loading_flag true 0 0 24 (.ok {}) true stWarm).2 (by decide) (by decide)).2.2⟩

/-! ## C4: the TTL gate and the forced bypass -/

/-- C4: a non-forced trigger is a no-op (state unchanged, nothing fetched)
when the time since the last successful install is strictly below
`ttl` hours; it proceeds to the loading phase (the refresh body runs) when
the age is at least the TTL or no install ever happened; and a forced
trigger ignores the TTL guard entirely — its outcome is the same for every
guard time and TTL, and it never skips for freshness.  (The `lu ≠ 0`
side conditions reflect the JavaScript truthiness test on `lastUpdate`;
any reachable `lastUpdate` is a positive epoch timestamp.) -/
theorem C4_ttl_gate (tGuard tInstall ttl : Int) (fetch : Except JsStr ParsedDoc)
    (saveOk : Bool) (st : ServiceState) (lu : Int) :
    (st.cache.lastUpdate = some lu → lu ≠ 0 → tGuard - lu < ttl * 3600000 →
      updateCache false tGuard tInstall ttl fetch saveOk st = (.skippedFresh, st)) ∧
    (st.cache.isLoading = false →
      (st.cache.lastUpdate = none ∨
        (st.cache.lastUpdate = some lu ∧ ttl * 3600000 ≤ tGuard - lu)) →
      updateCache false tGuard tInstall ttl fetch saveOk st
        = refreshBody tInstall fetch saveOk (beginRefresh st)) ∧
    (∀ tGuard' ttl' : Int,
      updateCache true tGuard tInstall ttl fetch saveOk st
        = updateCache true tGuard' tInstall ttl' fetch saveOk st) ∧
    (updateCache true tGuard tInstall ttl fetch saveOk st).1 ≠ .skippedFresh := by
  refine ⟨?_, ?_, ?_, ?_⟩
  · intro hlu hne hage
    have hTtl : ttlFresh false tGuard ttl st.cache = true := by
      simp [ttlFresh, hlu, hne, hage]
    simp [updateCache, hTtl]
  · intro hLoad hdue
    have hTtl : ttlFresh false tGuard ttl st.cache = false := by
      rcases hdue with h | ⟨h, hage⟩
      · simp [ttlFresh, h]
      · simp [ttlFresh, h, not_lt.mpr hage]
    simp [updateCache, hTtl, hLoad]
  · intro tGuard' ttl'
    simp [updateCache, ttlFresh]
  · have hTtl : ttlFresh true tGuard ttl st.cache = false := by simp [ttlFresh]
    simp only [updateCache, hTtl, Bool.false_eq_true, if_false]
    split
    · simp
    · exact (refreshBody_not_skipped _ _ _ _).1

/-- Witness for C4: the warm state (last update at time 1000) skips a
non-forced trigger shortly afterwards, proceeds once the TTL has elapsed,
and a forced trigger is insensitive to the guard clock. -/
theorem C4_ttl_gate_witness :
    stWarm.cache.lastUpdate = some 1000 ∧ (1000 : Int) ≠ 0 ∧
    ((2000 : Int) - 1000 < 24 * 3600000) ∧
    updateCache false 2000 2000 24 (.ok {}) true stWarm = (.skippedFresh, stWarm) ∧
    updateCache false 987654321 987654321 24 (.ok {}) true stWarm
      = refreshBody 987654321 (.ok {}) true (beginRefresh stWarm) :=
  ⟨by decide, by decide, by decide,
   (C4_ttl_gate 2000 2000 24 (.ok {}) true stWarm 1000).1 (by decide) (by decide) (by decide),
   ((C4_ttl_gate 987654321 987654321 24 (.ok {}) true stWarm 1000).2.1 (by decide)
     (Or.inr ⟨by decide, by decide⟩))⟩

/-! ## C8: a disk-save failure does not undo the install -/

/-- C8: when the fetch-and-parse step succeeds but the disk write fails,
the refresh still completes as a success: the new map and the install
timestamp are kept in memory, the loading flag is cleared, no error is
propagated, and the previous on-disk copy is left as it was. -/
theorem C8_save_failure_nonfatal (force : Bool) (tGuard tInstall ttl : Int)
    (doc : ParsedDoc) (st : ServiceState)
    (hTtl : ttlFresh force tGuard ttl st.cache = false)
    (hLoad : st.cache.isLoading = false) :
    updateCache force tGuard tInstall ttl (.ok doc) false st
      = (.success,
         { cache := { data := buildMap (findProducers doc)
                      lastUpdate := some tInstall, isLoading := false }
           disk := st.disk }) := by
  simp [updateCache, hTtl, hLoad, refreshBody, beginRefresh]

/-- Witness for C8: a successful refresh over a one-producer document with a
failing disk write installs the new snapshot in memory and keeps the old
disk contents. -/
theorem C8_save_failure_nonfatal_witness :
    ttlFresh true 5000 24 stWarm.cache = false ∧ stWarm.cache.isLoading = false ∧
    updateCache true 5000 6000 24
        (.ok { producersUpper := some (.one { RegistrationNumber := some (strCodes "DE7") }) })
        false stWarm
      = (.success,
         { cache := { data := buildMap (findProducers
                        { producersUpper := some (.one { RegistrationNumber := some (strCodes "DE7") }) })
                      lastUpdate := some 6000, isLoading := false }
           disk := stWarm.disk }) :=
  ⟨by decide, by decide,
   C8_save_failure_nonfatal true 5000 6000 24
     { producersUpper := some (.one { RegistrationNumber := some (strCodes "DE7") }) }
     stWarm (by decide) (by decide)⟩

/-! ## Map and normalization lemmas -/

theorem mapGet_mapSet (m : StoreMap) (k q : JsStr) (v : ProducerRecord) :
    mapGet (mapSet m k v) q = if q = k then some v else mapGet m q := by
  induction m with
  | nil =>
    simp only [mapSet, mapGet]
    by_cases h : q = k
    · rw [if_pos (h ▸ rfl), if_pos h]
    · rw [if_neg fun h' => h h'.symm, if_neg h]
  | cons hd tl ih =>
    obtain ⟨k', v'⟩ := hd
    simp only [mapSet]
    by_cases hk : k' = k
    · subst hk
      simp only [if_pos rfl, mapGet]
      by_cases hq : k' = q
      · rw [if_pos hq, if_pos hq.symm]
      · rw [if_neg hq, if_neg fun h' => hq h'.symm, if_neg hq]
    · rw [if_neg hk]
      simp only [mapGet, ih]
      by_cases hq : k' = q
      · rw [if_pos hq, if_neg fun h' : q = k => hk (hq.trans h'), if_pos hq]
      · rw [if_neg hq, if_neg hq]

theorem mapGet_ne_nil {m : StoreMap} {k : JsStr} {v : ProducerRecord}
    (h : mapGet m k = some v) : m ≠ [] := by
  intro hnil; subst hnil; simp [mapGet] at h

theorem isWsCode_upperCode (n : Nat) : isWsCode (upperCode n) = isWsCode n := by
  simp only [isWsCode, upperCode]
  split
  · rw [decide_eq_decide]; omega
  · rfl

theorem dropWhile_all_ws {w : JsStr} (h : ∀ c ∈ w, isWsCode c = true) :
    w.dropWhile isWsCode = [] := by
  induction w with
  | nil => rfl
  | cons c cs ih =>
    rw [List.dropWhile_cons_of_pos (h c (List.mem_cons_self c cs))]
    exact ih fun c hc => h c (List.mem_cons_of_mem _ hc)

/-- Surrounding whitespace is invisible to `trim`. -/
theorem jsTrim_pad (w1 m w2 : JsStr) (h1 : ∀ c ∈ w1, isWsCode c = true)
    (h2 : ∀ c ∈ w2, isWsCode c = true) :
    jsTrim (w1 ++ m ++ w2) = jsTrim m := by
  unfold jsTrim
  rw [List.append_assoc, List.dropWhile_append_of_pos h1, List.dropWhile_append]
  split
  · next hEmpty =>
    rw [dropWhile_all_ws h2, List.isEmpty_iff.mp hEmpty]
  · rw [List.reverse_append, List.dropWhile_append_of_pos
      (fun c hc => h2 c (List.mem_reverse.mp hc))]

/-- Upper-casing commutes with trimming, because upper-casing never changes
whether a code unit is whitespace. -/
theorem jsTrim_jsUpper (s : JsStr) : jsTrim (jsUpper s) = jsUpper (jsTrim s) := by
  have hcomp : (isWsCode ∘ upperCode) = isWsCode := funext isWsCode_upperCode
  unfold jsTrim jsUpper
  rw [List.dropWhile_map, hcomp, ← List.map_reverse, List.dropWhile_map, hcomp,
    ← List.map_reverse]

/-- A query differs from a reference string only by letter case and
surrounding whitespace: it is some whitespace, then a code-unit-wise
case-variant of the reference, then some whitespace. -/
def onlyCaseWsDiff (q r : JsStr) : Prop :=
  ∃ w1 m w2, (∀ c ∈ w1, isWsCode c = true) ∧ (∀ c ∈ w2, isWsCode c = true) ∧
    q = w1 ++ m ++ w2 ∧ m.map upperCode = r.map upperCode

/-- Case and surrounding-whitespace differences are erased by the shared
key normalization. -/
theorem normKey_eq_of_onlyCaseWsDiff {q r : JsStr} (h : onlyCaseWsDiff q r) :
    normKey q = normKey r := by
  obtain ⟨w1, m, w2, h1, h2, rfl, hcase⟩ := h
  unfold normKey
  rw [jsTrim_pad _ _ _ h1 h2, ← jsTrim_jsUpper, ← jsTrim_jsUpper]
  unfold jsUpper
  rw [hcase]

/-- Every binding in a built map is keyed by the normalization of the
registration number stored in its record. -/
theorem foldl_buildStep_key_inv (ps : List RawProducer) (m : StoreMap)
    (hm : ∀ k rec, mapGet m k = some rec → k = normKey rec.registration_number) :
    ∀ k rec, mapGet (ps.foldl buildStep m) k = some rec →
      k = normKey rec.registration_number := by
  induction ps generalizing m with
  | nil => exact hm
  | cons p ps ih =>
    intro k rec h
    refine ih (buildStep m p) ?_ k rec h
    intro k' rec' h'
    by_cases hreg : regNumOf p = []
    · have hstep : buildStep m p = m := by simp [buildStep, hreg]
      rw [hstep] at h'
      exact hm _ _ h'
    · have hstep : buildStep m p = mapSet m (normKey (regNumOf p)) (extractRecord p) := by
        simp [buildStep, hreg]
      rw [hstep, mapGet_mapSet] at h'
      by_cases hk' : k' = normKey (regNumOf p)
      · rw [if_pos hk'] at h'
        obtain rfl : extractRecord p = rec' := Option.some.inj h'
        simpa [extractRecord] using hk'
      · rw [if_neg hk'] at h'
        exact hm _ _ h'

theorem buildMap_key_inv (ps : List RawProducer) :
    ∀ k rec, mapGet (buildMap ps) k = some rec →
      k = normKey rec.registration_number :=
  foldl_buildStep_key_inv ps [] (by intro k rec h; simp [mapGet] at h)

/-- First non-empty value among a chain of optional alias values, stated
the way the spec words it (select present values, take the first non-empty
one, fall back to the empty string). -/
def specFirstNonEmpty (aliases : List (Option JsStr)) : JsStr :=
  (((aliases.filterMap id).find? (fun s => !s.isEmpty)).getD [])

/-- The JavaScript alias chain computes exactly the first non-empty alias
value. -/
theorem jsOr_eq_specFirstNonEmpty (xs : List (Option JsStr)) :
    jsOr xs = specFirstNonEmpty xs := by
  induction xs with
  | nil => rfl
  | cons x rest ih =>
    cases x with
    | none => simpa [jsOr, specFirstNonEmpty] using ih
    | some s =>
      by_cases h : s = []
      · subst h
        simpa [jsOr, specFirstNonEmpty, List.filterMap_cons] using ih
      · simp [jsOr, specFirstNonEmpty, List.filterMap_cons, h,
          List.find?_cons_of_pos, List.isEmpty_iff]

/-- Record extraction as the spec words it: per field, the first non-empty
alias wins. -/
def extractRecordSpec (p : RawProducer) : ProducerRecord where
  registration_number :=
    specFirstNonEmpty [p.RegistrationNumber, p.registrationNumber, p.registration_number, p.RegNr]
  company_name := specFirstNonEmpty [p.ProducerName, p.Name, p.CompanyName, p.name]
  vat_number := specFirstNonEmpty [p.VATNumber, p.UstIdNr, p.vat_number]
  tax_number := specFirstNonEmpty [p.TaxNumber, p.Steuernummer, p.tax_number]
  address := specFirstNonEmpty [p.Address, p.address]
  city := specFirstNonEmpty [p.City, p.city]
  postal_code := specFirstNonEmpty [p.PostalCode, p.postal_code]

/-! ## C5: the map-building fold -/

/-- C5: the lookup table is built as a left-to-right fold over the parsed
entries; each entry is processed by extracting its registration number as
the first non-empty alias value (and likewise for every other field), an
entry whose registration number is still empty is dropped, and an entry
whose normalized key already exists silently replaces the earlier
record. -/
theorem C5_build_table_fold (ps : List RawProducer) (p : RawProducer) :
    buildMap (ps ++ [p]) = buildStep (buildMap ps) p ∧
    (regNumOf p = [] → buildMap (ps ++ [p]) = buildMap ps) ∧
    (regNumOf p ≠ [] →
      mapGet (buildMap (ps ++ [p])) (normKey (regNumOf p)) = some (extractRecord p)) ∧
    regNumOf p = specFirstNonEmpty
      [p.RegistrationNumber, p.registrationNumber, p.registration_number, p.RegNr] ∧
    extractRecord p = extractRecordSpec p := by
  refine ⟨?_, ?_, ?_, jsOr_eq_specFirstNonEmpty _, ?_⟩
  · simp [buildMap, List.foldl_append]
  · intro h
    simp [buildMap, List.foldl_append, buildStep, h]
  · intro h
    simp [buildMap, List.foldl_append, buildStep, h, mapGet_mapSet]
  · simp only [extractRecord, extractRecordSpec, regNumOf, jsOr_eq_specFirstNonEmpty]

/-- Witness for C5: a second entry whose registration number normalizes to
the same key as an earlier entry replaces it, and the alias fallback picks
the first non-empty name. -/
theorem C5_build_table_fold_witness :
    regNumOf { RegNr := some (strCodes " de9 "), Name := some (strCodes "Beta") } ≠ [] ∧
    mapGet
        (buildMap
          ([{ RegistrationNumber := some (strCodes "DE9"),
              ProducerName := some (strCodes "Alpha") }] ++
            [{ RegNr := some (strCodes " de9 "), Name := some (strCodes "Beta") }]))
        (normKey (regNumOf { RegNr := some (strCodes " de9 "), Name := some (strCodes "Beta") }))
      = some (extractRecord { RegNr := some (strCodes " de9 "), Name := some (strCodes "Beta") }) :=
  ⟨by decide,
   (C5_build_table_fold
       [{ RegistrationNumber := some (strCodes "DE9"), ProducerName := some (strCodes "Alpha") }]
       { RegNr := some (strCodes " de9 "), Name := some (strCodes "Beta") }).2.2.1
     (by decide)⟩

/-! ## C6: container discovery order and graceful empty result -/

/-- C6: the normalizer probes exactly the four container paths in the fixed
order `Root.ListOfProducers.Producer`, `producers.producer`,
`RegisterExcerpt.Producer`, `Producers.Producer`, takes the first present
one (wrapping a lone entry into a one-element list), and when none is
present yields the empty record list while the surrounding refresh still
succeeds and installs an empty snapshot. -/
theorem C6_container_priority (d : ParsedDoc) (n : ProducerNode) (p : RawProducer)
    (force : Bool) (tGuard tInstall ttl : Int) (saveOk : Bool) (st : ServiceState) :
    (d.rootListOfProducers = some n → findProducers d = nodeList n) ∧
    (d.rootListOfProducers = none → d.producersLower = some n →
      findProducers d = nodeList n) ∧
    (d.rootListOfProducers = none → d.producersLower = none →
      d.registerExcerpt = some n → findProducers d = nodeList n) ∧
    (d.rootListOfProducers = none → d.producersLower = none →
      d.registerExcerpt = none → d.producersUpper = some n →
      findProducers d = nodeList n) ∧
    nodeList (.one p) = [p] ∧
    (d.rootListOfProducers = none → d.producersLower = none →
      d.registerExcerpt = none → d.producersUpper = none →
      findProducers d = [] ∧
      (ttlFresh force tGuard ttl st.cache = false → st.cache.isLoading = false →
        (updateCache force tGuard tInstall ttl (.ok d) saveOk st).1 = .success ∧
        (updateCache force tGuard tInstall ttl (.ok d) saveOk st).2.cache.data = [])) := by
  refine ⟨?_, ?_, ?_, ?_, rfl, ?_⟩
  · intro h1; simp [findProducers, h1]
  · intro h1 h2; simp [findProducers, h1, h2]
  · intro h1 h2 h3; simp [findProducers, h1, h2, h3]
  · intro h1 h2 h3 h4; simp [findProducers, h1, h2, h3, h4]
  · intro h1 h2 h3 h4
    have hfind : findProducers d = [] := by simp [findProducers, h1, h2, h3, h4]
    refine ⟨hfind, fun hTtl hLoad => ?_⟩
    simp [updateCache, hTtl, hLoad, refreshBody, hfind, buildMap]

/-- Witness for C6: a document carrying a single producer only under the
`RegisterExcerpt.Producer` path resolves through the third branch, and a
document with no known container refreshes to an installed empty
snapshot. -/
theorem C6_container_priority_witness :
    findProducers { registerExcerpt := some (.one { RegNr := some (strCodes "DE1") }) }
      = [{ RegNr := some (strCodes "DE1") }] ∧
    findProducers {} = [] ∧
    (updateCache true 0 7 24 (.ok {}) true stEmpty).1 = .success ∧
    (updateCache true 0 7 24 (.ok {}) true stEmpty).2.cache.data = [] := by
  have h := C6_container_priority
    { registerExcerpt := some (.one { RegNr := some (strCodes "DE1") }) }
    (.one { RegNr := some (strCodes "DE1") }) { RegNr := some (strCodes "DE1") }
    true 0 7 24 true stEmpty
  have h2 := C6_container_priority {} (.one {}) {} true 0 7 24 true stEmpty
  refine ⟨h.2.2.1 rfl rfl rfl, ?_, ?_, ?_⟩
  · exact (h2.2.2.2.2.2 rfl rfl rfl rfl).1
  · exact ((h2.2.2.2.2.2 rfl rfl rfl rfl).2 (by decide) (by decide)).1
  · exact ((h2.2.2.2.2.2 rfl rfl rfl rfl).2 (by decide) (by decide)).2

/-! ## C7: lookup uses the same key normalization as the build -/

/-- C7: a query that differs from a stored registration number only by
letter case or surrounding whitespace normalizes to the stored key, so the
lookup resolves to the stored record; in particular `de123`, `De123` and
space-padded `DE123` all normalize to `DE123`.  The final conjunct runs the
whole validate handler on a warm store built from the parsed entries. -/
theorem C7_lookup_same_normalization (ps : List RawProducer) (k q : JsStr)
    (rec : ProducerRecord)
    (hstored : mapGet (buildMap ps) k = some rec)
    (hdiff : onlyCaseWsDiff q rec.registration_number) :
    mapGet (buildMap ps) (normKey q) = some rec ∧
    normKey (strCodes "de123") = strCodes "DE123" ∧
    normKey (strCodes " DE123 ") = strCodes "DE123" ∧
    normKey (strCodes "De123") = strCodes "DE123" ∧
    (∀ (ik : String) (tGuard tInstall ttl : Int) (fetch : Except JsStr ParsedDoc)
       (saveOk : Bool) (lu : Option Int) (dk : Option DiskFile), q ≠ [] →
      validateHandler ik (some ik) (some q) tGuard tInstall ttl fetch saveOk
          { cache := { data := buildMap ps, lastUpdate := lu, isLoading := false }
            disk := dk }
        = (.found q rec,
           { cache := { data := buildMap ps, lastUpdate := lu, isLoading := false }
             disk := dk })) := by
  have hk := buildMap_key_inv ps k rec hstored
  have hget : mapGet (buildMap ps) (normKey q) = some rec := by
    rw [normKey_eq_of_onlyCaseWsDiff hdiff, ← hk, hstored]
  refine ⟨hget, by decide, by decide, by decide, ?_⟩
  intro ik tGuard tInstall ttl fetch saveOk lu dk hq
  have hne : buildMap ps ≠ [] := mapGet_ne_nil hstored
  have hsize : ¬ mapSize (buildMap ps) = 0 := by
    simpa [mapSize, List.length_eq_zero] using hne
  simp [validateHandler, hq, hsize, lookupAnswer, hget]

/-- Witness for C7: the store built from one entry registered as `DE123`
answers the space-padded lower-case query with that record. -/
theorem C7_lookup_same_normalization_witness :
    mapGet (buildMap [{ RegistrationNumber := some (strCodes "DE123"),
                        ProducerName := some (strCodes "Acme") }])
        (normKey (strCodes " de123 "))
      = some (extractRecord { RegistrationNumber := some (strCodes "DE123"),
                              ProducerName := some (strCodes "Acme") }) :=
  (C7_lookup_same_normalization
      [{ RegistrationNumber := some (strCodes "DE123"), ProducerName := some (strCodes "Acme") }]
      (strCodes "DE123") (strCodes " de123 ")
      (extractRecord { RegistrationNumber := some (strCodes "DE123"),
                       ProducerName := some (strCodes "Acme") })
      (by decide)
      ⟨[32], strCodes "de123", [32], by decide, by decide, by decide, by decide⟩).1

/-! ## C3: lookup against an empty store -/

/-- A state with an empty store while a refresh is already in progress. -/
def stEmptyLoading : ServiceState :=
  { cache := { data := [], lastUpdate := none, isLoading := true }, disk := none }

/-- C3 counterexample: with the store empty and another refresh already in
progress (whose fetch fails), the lookup request does not wait and does not
return the 503 response: its `updateCache(true)` call is the in-progress
no-op, and the request is answered `not_found` from the still-empty store,
with the state unchanged. -/
theorem C3_counterexample :
    validateHandler "k" (some "k") (some (strCodes "DE999")) 0 0 24
        (.error (strCodes "fetch failed")) true stEmptyLoading
      = (.notFound (strCodes "DE999"), stEmptyLoading) ∧
    ValidateResp.notFound (strCodes "DE999") ≠ .unavailable := by
  exact ⟨by decide, by decide⟩

/-- C3 amended: a lookup finding the store empty triggers a forced refresh
and waits for it only when no refresh is already in progress — then a
fetch/parse failure yields the 503 response with the state untouched, and a
success answers the query from the newly installed snapshot.  When another
refresh is already in progress, the triggered update returns immediately as
a no-op and the request is answered `not_found` from the still-empty
store. -/
theorem C3_empty_store_lazy_refresh (ik : String) (l : JsStr) (tGuard tInstall ttl : Int)
    (saveOk : Bool) (st : ServiceState) (e : JsStr) (doc : ParsedDoc)
    (hempty : mapSize st.cache.data = 0) (hl : l ≠ []) :
    (st.cache.isLoading = false →
      validateHandler ik (some ik) (some l) tGuard tInstall ttl (.error e) saveOk st
        = (.unavailable, st)) ∧
    (st.cache.isLoading = false →
      validateHandler ik (some ik) (some l) tGuard tInstall ttl (.ok doc) saveOk st
        = (lookupAnswer l (updateCache true tGuard tInstall ttl (.ok doc) saveOk st).2,
           (updateCache true tGuard tInstall ttl (.ok doc) saveOk st).2) ∧
      (updateCache true tGuard tInstall ttl (.ok doc) saveOk st).2.cache.data
        = buildMap (findProducers doc)) ∧
    (st.cache.isLoading = true →
      validateHandler ik (some ik) (some l) tGuard tInstall ttl (.error e) saveOk st
        = (.notFound l, st)) := by
  have hTtl : ∀ f : Except JsStr ParsedDoc,
      ttlFresh true tGuard ttl st.cache = false := fun _ => by simp [ttlFresh]
  refine ⟨?_, ?_, ?_⟩
  · intro hLoad
    have hup := updateCache_error_state true tGuard tInstall ttl e saveOk st (hTtl (.error e)) hLoad
    simp [validateHandler, hl, hempty, hup]
  · intro hLoad
    have hup : updateCache true tGuard tInstall ttl (.ok doc) saveOk st
        = refreshBody tInstall (.ok doc) saveOk (beginRefresh st) := by
      simp [updateCache, hTtl (.ok doc), hLoad]
    constructor
    · simp [validateHandler, hl, hempty, hup, refreshBody]
    · simp [hup, refreshBody]
  · intro hLoad
    have hdata : st.cache.data = [] := by
      simpa [mapSize, List.length_eq_zero] using hempty
    have hup : updateCache true tGuard tInstall ttl (.error e) saveOk st
        = (.skippedLoading, st) := by
      simp [updateCache, hTtl (.error e), hLoad]
    simp [validateHandler, hl, hempty, hup, lookupAnswer, hdata, mapGet]

/-- Witness for C3 amended, exercising all three branches at concrete
states: a failing lazy refresh from an idle empty store gives 503, a
succeeding one answers from the fresh snapshot, and an empty store with a
refresh already in flight answers `not_found`. -/
theorem C3_empty_store_lazy_refresh_witness :
    mapSize stEmpty.cache.data = 0 ∧ strCodes "DE999" ≠ [] ∧
    validateHandler "k" (some "k") (some (strCodes "DE999")) 0 3 24
        (.error (strCodes "boom")) true stEmpty
      = (.unavailable, stEmpty) ∧
    validateHandler "k" (some "k") (some (strCodes "DE999")) 0 3 24
        (.ok { producersUpper := some (.one { RegistrationNumber := some (strCodes "de999"),
                                              Name := some (strCodes "Acme") }) }) true stEmpty
      = (lookupAnswer (strCodes "DE999")
           (updateCache true 0 3 24
             (.ok { producersUpper := some (.one { RegistrationNumber := some (strCodes "de999"),
                                                   Name := some (strCodes "Acme") }) }) true stEmpty).2,
         (updateCache true 0 3 24
           (.ok { producersUpper := some (.one { RegistrationNumber := some (strCodes "de999"),
                                                 Name := some (strCodes "Acme") }) }) true stEmpty).2) ∧
    validateHandler "k" (some "k") (some (strCodes "DE999")) 0 3 24
        (.error (strCodes "boom")) true stEmptyLoading
      = (.notFound (strCodes "DE999"), stEmptyLoading) := by
  have hIdle := C3_empty_store_lazy_refresh "k" (strCodes "DE999") 0 3 24 true stEmpty
    (strCodes "boom")
    { producersUpper := some (.one { RegistrationNumber := some (strCodes "de999"),
                                     Name := some (strCodes "Acme") }) }
    (by decide) (by decide)
  have hBusy := C3_empty_store_lazy_refresh "k" (strCodes "DE999") 0 3 24 true stEmptyLoading
    (strCodes "boom")
    { producersUpper := some (.one { RegistrationNumber := some (strCodes "de999"),
                                     Name := some (strCodes "Acme") }) }
    (by decide) (by decide)
  exact ⟨by decide, by decide, hIdle.1 (by decide), (hIdle.2.1 (by decide)).1,
    hBusy.2.2 (by decide)⟩

/-! ## C9: the admin refresh endpoint -/

/-- C9 counterexample: the `POST /admin/refresh` handler of `server.js`
(the file the Dockerfile deploys) awaits the forced refresh: when the fetch
fails it answers the 500 error response, not the immediate
current-entry-count response, so the refresh outcome is visible in the
response itself. -/
theorem C9_counterexample :
    adminRefreshV2 "" none 0 0 24 (.error (strCodes "timeout")) true stEmpty
      = (.failed (strCodes "timeout"), stEmpty) ∧
    AdminResp.failed (strCodes "timeout") ≠ .started (mapSize stEmpty.cache.data) := by
  exact ⟨by decide, by decide⟩

/-- C9 amended: in the v4 server file the handler (after its key check)
responds immediately with the entry count of the current snapshot — the
response is the same whatever the refresh outcome — while the forced
refresh runs in the background, its outcome reflected only in the resulting
state; the older `server.js` variant instead awaits the refresh and reports
its outcome in the response. -/
theorem C9_v4_responds_immediately (ik : String) (provided : Option String)
    (tGuard tInstall ttl : Int) (fetch fetch' : Except JsStr ParsedDoc)
    (saveOk : Bool) (st : ServiceState)
    (hauth : ¬(ik ≠ "" ∧ provided ≠ some ik)) :
    adminRefreshV4 ik provided tGuard tInstall ttl fetch saveOk st
      = (.started (mapSize st.cache.data),
         (updateCache true tGuard tInstall ttl fetch saveOk st).2) ∧
    (adminRefreshV4 ik provided tGuard tInstall ttl fetch saveOk st).1
      = (adminRefreshV4 ik provided tGuard tInstall ttl fetch' saveOk st).1 := by
  constructor
  · simp [adminRefreshV4, hauth]
  · simp [adminRefreshV4, hauth]

/-- Witness for C9 amended: with no configured key, a failing background
refresh still gets the immediate current-count response, identical to the
response under a succeeding fetch. -/
theorem C9_v4_responds_immediately_witness :
    adminRefreshV4 "" none 0 0 24 (.error (strCodes "timeout")) true stWarm
      = (.started (mapSize stWarm.cache.data),
         (updateCache true 0 0 24 (.error (strCodes "timeout")) true stWarm).2) ∧
    (adminRefreshV4 "" none 0 0 24 (.error (strCodes "timeout")) true stWarm).1
      = (adminRefreshV4 "" none 0 0 24 (.ok {}) true stWarm).1 :=
  C9_v4_responds_immediately "" none 0 0 24 (.error (strCodes "timeout")) (.ok {}) true stWarm
    (by simp)

/-! ## C10: fetch bounds are hardcoded, not configured -/

/-- C10 counterexample: an environment that sets a request timeout of 1000
milliseconds and a response cap of 5000 bytes still yields a fetch request
with the hardcoded 5-minute timeout and 2 GB caps — the code never reads
those variables. -/
theorem C10_counterexample :
    (buildFetchReq (buildConfig { REQUEST_TIMEOUT_MS := some 1000,
                                  MAX_RESPONSE_BYTES := some 5000 })).timeoutMs = 300000 ∧
    (300000 : Int) ≠ 1000 ∧
    (buildFetchReq (buildConfig { REQUEST_TIMEOUT_MS := some 1000,
                                  MAX_RESPONSE_BYTES := some 5000 })).maxContentLength
      = 2097152000 ∧
    (2097152000 : Int) ≠ 5000 := by
  exact ⟨rfl, by decide, rfl, by decide⟩

/-- C10 amended: the upstream URL, access credential, cache TTL and
persistence directory are environment-configured, but the fetch timeout and
the response-size caps are hardcoded literals (300000 ms and 2097152000
bytes), identical for every environment. -/
theorem C10_fetch_bounds_hardcoded (env : Env) :
    (buildFetchReq (buildConfig env)).timeoutMs = 300000 ∧
    (buildFetchReq (buildConfig env)).maxContentLength = 2097152000 ∧
    (buildFetchReq (buildConfig env)).maxBodyLength = 2097152000 ∧
    (buildFetchReq (buildConfig env)).url = (buildConfig env).api_url ∧
    (buildFetchReq (buildConfig env)).tokenParam = (buildConfig env).zsvr_token ∧
    (buildConfig env).api_url
      = env.LUCID_API_URL.getD
          "https://registerabruf.verpackungsregister.org/v1/listofproducers" ∧
    (buildConfig env).zsvr_token = env.ZSVR_TOKEN.getD "" ∧
    (buildConfig env).cache_ttl_hours = env.CACHE_TTL_HOURS.getD 24 ∧
    cacheDir env = env.CACHE_DIR.getD "/data" := by
  exact ⟨rfl, rfl, rfl, rfl, rfl, rfl, rfl, rfl, rfl⟩

end LucidService
